import Mathlib

/-!
Verification of the QuantumHarmony testnet faucet (`src/main.rs`).

The development shallowly embeds the faucet's pure decision logic:

* a JSON value model mirroring `serde_json::Value` as used by the code
  (`get`, bracket indexing, `as_str`, `as_u64`);
* the RPC helpers `get_genesis_hash`, `get_nonce`, `submit_transfer`
  (network I/O is abstracted by an oracle giving each call's outcome:
  either a transport-level failure or a parsed JSON body);
* the `drip` handler state machine over `AppState`
  (rate-limit map, pending-transaction list);
* the `health_check` fold over the validator list, and
  `find_active_validator`.

Rust machine integers are modelled as `Nat`/`Int` with explicit
`% 2 ^ w` at the points where the source performs wrapping casts.
`chrono` timestamps are modelled as `Int` nanoseconds; the source's
`Duration::num_seconds` truncates toward zero, which is `Int.tdiv`.
Rust operations that can panic (byte slicing `&s[i..]`, `&s[..i]`)
are modelled with `Option`, `none` meaning a panic.
-/

/-- Model of `serde_json::Value`.  Numbers are modelled as unbounded
integers: `serde_json` stores a JSON integer as `u64`/`i64` when it fits
and otherwise as `f64`; `Json.asU64` below reflects that `as_u64` only
succeeds on values representable as `u64`.  (Non-integral floats never
appear in the payloads this program inspects.) -/
inductive Json where
  | null : Json
  | bool (b : Bool) : Json
  | num (n : Int) : Json
  | str (s : String) : Json
  | arr (elems : List Json) : Json
  | obj (fields : List (String × Json)) : Json

/-- `Value::get(key)`: field lookup on objects, `None` on anything else. -/
def Json.getField : Json → String → Option Json
  | .obj fields, key => fields.lookup key
  | _, _ => none

/-- Bracket indexing `json["key"]`: like `get` but yielding `Null` when
the field is missing or the value is not an object. -/
def Json.index (j : Json) (key : String) : Json :=
  (j.getField key).getD Json.null

/-- `Value::as_str`. -/
def Json.asStr : Json → Option String
  | .str s => some s
  | _ => none

/-- `Value::as_u64`: succeeds exactly on integers in `[0, 2^64)`;
integers outside the `u64` range are stored by `serde_json` as `f64`,
for which `as_u64` returns `None`. -/
def Json.asU64 : Json → Option Nat
  | .num n => if 0 ≤ n ∧ n < 2 ^ 64 then some n.toNat else none
  | _ => none

mutual

/-- Model of the `{:?}` (Debug) rendering of a `serde_json::Value`,
used only inside the "No transaction hash returned" error text. -/
def jsonDebug : Json → String
  | .null => "Null"
  | .bool b => "Bool(" ++ (if b then "true" else "false") ++ ")"
  | .num n => "Number(" ++ toString n ++ ")"
  | .str s => "String(\"" ++ s ++ "\")"
  | .arr elems => "Array [" ++ jsonDebugList elems ++ "]"
  | .obj fields => "Object \x7b" ++ jsonDebugFields fields ++ "\x7d"

def jsonDebugList : List Json → String
  | [] => ""
  | [j] => jsonDebug j
  | j :: rest => jsonDebug j ++ ", " ++ jsonDebugList rest

def jsonDebugFields : List (String × Json) → String
  | [] => ""
  | [(k, v)] => "\"" ++ k ++ "\": " ++ jsonDebug v
  | (k, v) :: rest => "\"" ++ k ++ "\": " ++ jsonDebug v ++ ", " ++ jsonDebugFields rest

end

/-- Outcome of one outbound RPC call, as seen by the faucet code:
either a transport-level failure (`send()` or body-to-JSON decoding
failed; the carried string is the rendered error) or a parsed JSON
response body. -/
inductive RpcOutcome where
  | transportErr (msg : String) : RpcOutcome
  | reply (body : Json) : RpcOutcome

/-- The three upstream responses a single `submit_transfer` run can
observe, one per RPC call it makes. -/
structure RpcOracle where
  genesis : RpcOutcome
  nonce : RpcOutcome
  submit : RpcOutcome

/-! ## Configuration constants (lines 21–39 of `main.rs`) -/

def DRIP_AMOUNT : Nat := 10000000000000

def RATE_LIMIT_SECONDS : Int := 60

def MAX_PENDING_TXS : Nat := 100

def VALIDATORS : List String :=
  ["http://51.79.26.123:9944", "http://51.79.26.168:9944", "http://209.38.225.4:9944"]

def ALICE_SPHINCS_SEED_HEX : String :=
  "2eb5fca9ecb08243d333e38adbc99a786edea20f8f88c51b5703754eef4d7a66183e03c1de99dc133c29c5cde6a984f5"

def ALICE_ADDRESS : String := "5HDjAbVHMuJzezSccj6eFrEA6nKjonrFRm8h7aTiJXSHP5Qi"

/-! ## String primitives used by the handler -/

/-- The Unicode `White_Space` property, which is what Rust's
`str::trim` strips from both ends. -/
def rustIsWhitespace (c : Char) : Bool :=
  let n := c.toNat
  (9 ≤ n && n ≤ 13) || n == 32 || n == 0x85 || n == 0xA0 || n == 0x1680 ||
    (0x2000 ≤ n && n ≤ 0x200A) || n == 0x2028 || n == 0x2029 || n == 0x202F ||
    n == 0x205F || n == 0x3000

/-- `str::trim` on the character list: strip whitespace from the front,
then from the back. -/
def rustTrimList (l : List Char) : List Char :=
  ((l.dropWhile rustIsWhitespace).reverse.dropWhile rustIsWhitespace).reverse

/-- `str::trim`. -/
def rustTrim (s : String) : String :=
  String.mk (rustTrimList s.data)

/-- `&s[..n]` byte slicing: `some` prefix when `n` is within bounds and
falls on a UTF-8 character boundary, `none` (a Rust panic) otherwise. -/
def takeBytes : Nat → List Char → Option (List Char)
  | 0, _ => some []
  | _ + 1, [] => none
  | n + 1, c :: rest =>
    if c.utf8Size ≤ n + 1 then (takeBytes (n + 1 - c.utf8Size) rest).map (c :: ·)
    else none

/-- `&s[n..]` byte slicing: `some` suffix when `n` is within bounds and
falls on a UTF-8 character boundary, `none` (a Rust panic) otherwise. -/
def dropBytes : Nat → List Char → Option (List Char)
  | 0, l => some l
  | _ + 1, [] => none
  | n + 1, c :: rest =>
    if c.utf8Size ≤ n + 1 then dropBytes (n + 1 - c.utf8Size) rest
    else none

/-- `chrono`'s `Duration::num_seconds` on a duration of `d` nanoseconds:
whole seconds, truncated toward zero. -/
def numSeconds (d : Int) : Int :=
  d.tdiv 1000000000

/-! ## RPC helpers (lines 263–376 of `main.rs`) -/

/-- `get_genesis_hash` (lines 263–291): transport failures propagate via
`?`; an `error` field in the body becomes
`RPC error: <error.message or "Unknown">`; otherwise the `result` field
must be a string. -/
def get_genesis_hash (resp : RpcOutcome) : Except String String :=
  match resp with
  | .transportErr m => .error m
  | .reply json =>
    match json.getField "error" with
    | some err => .error ("RPC error: " ++ ((err.index "message").asStr.getD "Unknown"))
    | none =>
      match (json.index "result").asStr with
      | some s => .ok s
      | none => .error "Failed to get genesis hash"

/-- `get_nonce` (lines 293–318): after the `error`-field check, the
result is `json["result"].as_u64().unwrap_or(0) as u32`; the `as u32`
cast wraps, i.e. reduces modulo `2 ^ 32`. -/
def get_nonce (resp : RpcOutcome) : Except String Nat :=
  match resp with
  | .transportErr m => .error m
  | .reply json =>
    match json.getField "error" with
    | some err => .error ("RPC error: " ++ ((err.index "message").asStr.getD "Unknown"))
    | none => .ok (((json.index "result").asU64.getD 0) % 2 ^ 32)

/-- Extraction of the transaction hash from the `gateway_submit`
response body (lines 359–371): an `error` field becomes
`RPC error: <error.message or "Unknown error">`; otherwise the hash is
`result.hash` as a string, else `result` itself as a string, else the
call fails with the missing-hash error. -/
def submit_result_hash (submit_json : Json) : Except String String :=
  match submit_json.getField "error" with
  | some err => .error ("RPC error: " ++ ((err.index "message").asStr.getD "Unknown error"))
  | none =>
    match ((submit_json.index "result").index "hash").asStr with
    | some h => .ok h
    | none =>
      match (submit_json.index "result").asStr with
      | some h => .ok h
      | none => .error ("No transaction hash returned: " ++ jsonDebug submit_json)

/-- The `gateway_submit` request body built at lines 336–348. -/
def mk_submit_request (to_addr : String) (amount : Nat) (nonce : Nat) (genesis_hash : String) : Json :=
  Json.obj
    [("jsonrpc", .str "2.0"),
     ("method", .str "gateway_submit"),
     ("params", .arr
       [Json.obj
         [("from", .str ALICE_ADDRESS),
          ("to", .str to_addr),
          ("amount", .str (toString amount)),
          ("nonce", .num nonce),
          ("genesisHash", .str genesis_hash),
          ("secretKey", .str ("0x" ++ ALICE_SPHINCS_SEED_HEX))]]),
     ("id", .num 1)]

/-- `submit_transfer` (lines 320–376).  The outer `Option` is `none`
when the handler panics: line 332 logs `&genesis_hash[..16]`, which
byte-slices the genesis hash and panics when it is shorter than 16
bytes (or 16 is not a character boundary). -/
def submit_transfer (orc : RpcOracle) (to_addr : String) (amount : Nat) :
    Option (Except String String) :=
  match get_genesis_hash orc.genesis with
  | .error e => some (.error e)
  | .ok genesis_hash =>
    match get_nonce orc.nonce with
    | .error e => some (.error e)
    | .ok nonce =>
      match takeBytes 16 genesis_hash.data with
      | none => none
      | some _ =>
        let _submit_req := mk_submit_request to_addr amount nonce genesis_hash
        match orc.submit with
        | .transportErr m => some (.error m)
        | .reply submit_json => some (submit_result_hash submit_json)

/-- The request body actually sent to `gateway_submit` during a
`submit_transfer` run, when execution reaches that call: `none` when an
earlier step failed or panicked. -/
def sent_submit_request (orc : RpcOracle) (to_addr : String) (amount : Nat) : Option Json :=
  match get_genesis_hash orc.genesis with
  | .error _ => none
  | .ok genesis_hash =>
    match get_nonce orc.nonce with
    | .error _ => none
    | .ok nonce =>
      match takeBytes 16 genesis_hash.data with
      | none => none
      | some _ => some (mk_submit_request to_addr amount nonce genesis_hash)

/-! ## Application state and the `drip` handler (lines 41–261) -/

/-- A pending-transaction record (lines 48–53).  The Rust field `to` is
spelled `to_addr` here because `to` is reserved in Lean. -/
structure PendingTx where
  to_addr : String
  amount : Nat
  timestamp : Int
deriving DecidableEq

/-- The process-wide shared state (lines 41–46): the rate-limit map is
modelled as an association list, the pending list as a `List`. -/
structure AppState where
  rate_limits : List (String × Int)
  pending_txs : List PendingTx
  active_validator : String
deriving DecidableEq

/-- The JSON body of a `/drip` response (lines 60–66). -/
structure DripResponse where
  success : Bool
  message : String
  tx_hash : Option String
  amount : String
deriving DecidableEq

/-- `DashMap::insert`: overwrite the binding for `key`. -/
def rateLimitInsert (m : List (String × Int)) (key : String) (v : Int) :
    List (String × Int) :=
  (key, v) :: m.filter (fun p => p.1 != key)

/-- Last stage of `drip` (lines 218–260): call `submit_transfer`; on
success record the rate-limit timestamp and append a pending record; on
failure return 500 and leave the state untouched.  The outer `Option`
is `none` when `submit_transfer` panics. -/
def drip_submit_step (st : AppState) (now : Int) (orc : RpcOracle) (address : String) :
    Option (Nat × DripResponse × AppState) :=
  match submit_transfer orc address DRIP_AMOUNT with
  | none => none
  | some (.ok tx_hash) =>
    some (200,
      ⟨true, "Tokens sent successfully!", some tx_hash,
        toString (DRIP_AMOUNT / 1000000000000) ++ " QHT"⟩,
      { st with
        rate_limits := rateLimitInsert st.rate_limits address now,
        pending_txs := st.pending_txs ++ [⟨address, DRIP_AMOUNT, now⟩] })
  | some (.error e) =>
    some (500, ⟨false, "Failed to send transaction: " ++ e, none, "0"⟩, st)

/-- Pending-capacity check of `drip` (lines 202–216). -/
def drip_capacity_step (st : AppState) (now : Int) (orc : RpcOracle) (address : String) :
    Option (Nat × DripResponse × AppState) :=
  if st.pending_txs.length ≥ MAX_PENDING_TXS then
    some (503,
      ⟨false, "Too many pending transactions. Please try again later.", none, "0"⟩, st)
  else drip_submit_step st now orc address

/-- Rate-limit check of `drip` (lines 184–200). -/
def drip_rate_step (st : AppState) (now : Int) (orc : RpcOracle) (address : String) :
    Option (Nat × DripResponse × AppState) :=
  match st.rate_limits.lookup address with
  | some last_request =>
    if numSeconds (now - last_request) < RATE_LIMIT_SECONDS then
      some (429,
        ⟨false,
          "Rate limited. Please wait "
            ++ toString (RATE_LIMIT_SECONDS - numSeconds (now - last_request))
            ++ " seconds",
          none, "0"⟩, st)
    else drip_capacity_step st now orc address
  | none => drip_capacity_step st now orc address

/-- Rust's `str::starts_with` with a `char` pattern: the first character
equals the pattern (false on the empty string). -/
def starts_with_char (s : String) (c : Char) : Bool :=
  match s.data with
  | d :: _ => d == c
  | [] => false

/-- Address-format validation of `drip` (lines 169–182): the (already
trimmed) address must start with `'5'` and have `len()` (UTF-8 byte
length) exactly 48. -/
def drip_validated (st : AppState) (now : Int) (orc : RpcOracle) (address : String) :
    Option (Nat × DripResponse × AppState) :=
  if !(starts_with_char address '5') || address.utf8ByteSize != 48 then
    some (400,
      ⟨false,
        "Invalid address format. Must be a valid Substrate address starting with '5'",
        none, "0"⟩, st)
  else drip_rate_step st now orc address

/-- The `drip` handler (lines 165–261): trim the supplied address
(line 169), then validate, rate-limit, capacity-check and submit.  The
result is the HTTP status code, the response body, and the state after
the request (`none` = panic). -/
def drip (st : AppState) (now : Int) (orc : RpcOracle) (request_address : String) :
    Option (Nat × DripResponse × AppState) :=
  drip_validated st now orc (rustTrim request_address)

/-! ## `find_active_validator` (lines 378–405) -/

/-- The probe loop: first endpoint whose `system_health` probe had a
transport-level success (`resp.status().is_success()`); the probe
outcome per endpoint is abstracted as `probe_ok`, which ignores the RPC
payload just as the source does. -/
def find_active_validator_from (probe_ok : String → Bool) : List String → Option String
  | [] => none
  | v :: rest => if probe_ok v then some v else find_active_validator_from probe_ok rest

/-- `find_active_validator`: first responding endpoint, defaulting to
`VALIDATORS[0]` when none responds. -/
def find_active_validator (probe_ok : String → Bool) : String :=
  match find_active_validator_from probe_ok VALIDATORS with
  | some v => v
  | none => VALIDATORS.headD ""

/-! ## The `/health` handler (lines 84–150) -/

/-- The JSON body of a `/health` response (lines 77–82). -/
structure HealthResponse where
  healthy : Bool
  validators_online : Nat
  block_height : Option Nat
deriving DecidableEq

/-- Upstream outcomes observed by one `/health` request: for each
validator URL, whether its `system_health` probe had a transport-level
success, and the outcome of the `chain_getHeader` call. -/
structure HealthOracle where
  system_health_ok : String → Bool
  chain_get_header : String → RpcOutcome

/-- One hexadecimal digit, as accepted by `from_str_radix(_, 16)`. -/
def hexDigitVal (c : Char) : Option Nat :=
  if '0' ≤ c ∧ c ≤ '9' then some (c.toNat - '0'.toNat)
  else if 'a' ≤ c ∧ c ≤ 'f' then some (c.toNat - 'a'.toNat + 10)
  else if 'A' ≤ c ∧ c ≤ 'F' then some (c.toNat - 'A'.toNat + 10)
  else none

/-- Value of a nonempty all-hex digit string; `none` otherwise. -/
def hexDigitsVal (l : List Char) : Option Nat :=
  match l with
  | [] => none
  | _ =>
    l.foldl
      (fun acc c =>
        match acc, hexDigitVal c with
        | some a, some d => some (a * 16 + d)
        | _, _ => none)
      (some 0)

/-- `u64::from_str_radix(s, 16)`: optional leading `'+'`, then a
nonempty hex-digit string whose value fits in `u64`. -/
def from_str_radix_16_u64 (s : String) : Option Nat :=
  let l :=
    match s.data with
    | '+' :: rest => rest
    | l => l
  match hexDigitsVal l with
  | some v => if v < 2 ^ 64 then some v else none
  | none => none

/-- Block-height extraction from a `chain_getHeader` body
(lines 126–131): read `result.number` as a string, byte-slice off the
first two bytes (`&number[2..]` — this PANICS, outer `none`, when the
string is shorter than two bytes), then parse as hex; a parse failure
leaves the height unset (inner `none`). -/
def parse_block_height (json : Json) : Option (Option Nat) :=
  match ((json.index "result").index "number").asStr with
  | none => some none
  | some number =>
    match dropBytes 2 number.data with
    | none => none
    | some rest => some (from_str_radix_16_u64 (String.mk rest))

/-- One iteration of the `/health` loop over `VALIDATORS`
(lines 92–137), folding the pair (validators online so far, block
height so far); `none` = a panic already occurred. -/
def health_fold (orc : HealthOracle) (acc : Option (Nat × Option Nat))
    (validator_url : String) : Option (Nat × Option Nat) :=
  match acc with
  | none => none
  | some (validators_online, block_height) =>
    if orc.system_health_ok validator_url then
      match block_height with
      | some h => some (validators_online + 1, some h)
      | none =>
        match orc.chain_get_header validator_url with
        | .transportErr _ => some (validators_online + 1, none)
        | .reply json =>
          match parse_block_height json with
          | none => none
          | some h => some (validators_online + 1, h)
    else some (validators_online, block_height)

/-- The `health_check` handler (lines 84–150): status code and body,
`none` = the handler panicked. -/
def health_check (orc : HealthOracle) : Option (Nat × HealthResponse) :=
  match VALIDATORS.foldl (health_fold orc) (some (0, none)) with
  | none => none
  | some (validators_online, block_height) =>
    let resp : HealthResponse :=
      ⟨decide (0 < validators_online), validators_online, block_height⟩
    some (if resp.healthy then (200, resp) else (503, resp))

/-! ## Helper lemmas -/

theorem dropWhile_cons_of_false {p : Char → Bool} {a : Char} {l : List Char}
    (h : p a = false) : List.dropWhile p (a :: l) = a :: l := by
  simp [List.dropWhile, h]

theorem dropWhile_head_false {p : Char → Bool} :
    ∀ {l : List Char} {a : Char} {t : List Char},
      List.dropWhile p l = a :: t → p a = false := by
  intro l
  induction l with
  | nil => intro a t h; simp [List.dropWhile] at h
  | cons b r ih =>
    intro a t h
    by_cases hb : p b
    · rw [List.dropWhile_cons, if_pos hb] at h
      exact ih h
    · rw [List.dropWhile_cons, if_neg hb] at h
      cases h
      exact Bool.of_not_eq_true hb

theorem dropWhile_idem (p : Char → Bool) (l : List Char) :
    List.dropWhile p (List.dropWhile p l) = List.dropWhile p l := by
  cases h : List.dropWhile p l with
  | nil => rfl
  | cons a t => exact dropWhile_cons_of_false (dropWhile_head_false h)

theorem dropWhile_take_of_fixed {p : Char → Bool} {l : List Char}
    (h : List.dropWhile p l = l) (k : Nat) :
    List.dropWhile p (l.take k) = l.take k := by
  cases l with
  | nil => simp
  | cons a t =>
    have ha : p a = false := dropWhile_head_false h
    cases k with
    | zero => simp
    | succ k =>
      rw [List.take_succ_cons]
      exact dropWhile_cons_of_false ha

theorem dropWhile_eq_drop (p : Char → Bool) (l : List Char) :
    ∃ j, j ≤ l.length ∧ List.dropWhile p l = l.drop j := by
  induction l with
  | nil => exact ⟨0, by simp⟩
  | cons a t ih =>
    by_cases ha : p a
    · obtain ⟨j, hj, hd⟩ := ih
      exact ⟨j + 1, by simpa using hj, by rw [List.dropWhile_cons, if_pos ha]; simpa using hd⟩
    · exact ⟨0, by simp, by rw [List.dropWhile_cons, if_neg ha]; simp⟩

theorem reverse_drop_reverse (l : List Char) (j : Nat) (hj : j ≤ l.length) :
    (l.reverse.drop j).reverse = l.take (l.length - j) := by
  have h1 : (l.take (l.length - j)).reverse = l.reverse.drop (l.length - (l.length - j)) :=
    List.reverse_take
  have h2 : l.length - (l.length - j) = j := by omega
  rw [h2] at h1
  rw [← h1, List.reverse_reverse]

theorem trimR_fixed_under_dropWhile (p : Char → Bool) (l : List Char) :
    List.dropWhile p (((List.dropWhile p l).reverse.dropWhile p).reverse)
      = ((List.dropWhile p l).reverse.dropWhile p).reverse := by
  have hfix : List.dropWhile p (List.dropWhile p l) = List.dropWhile p l := dropWhile_idem p l
  obtain ⟨j, hj, hd⟩ := dropWhile_eq_drop p (List.dropWhile p l).reverse
  have hjl : j ≤ (List.dropWhile p l).length := by simpa using hj
  rw [hd, reverse_drop_reverse (List.dropWhile p l) j hjl]
  exact dropWhile_take_of_fixed hfix _

theorem rustTrimList_idem (l : List Char) : rustTrimList (rustTrimList l) = rustTrimList l := by
  have h1 : List.dropWhile rustIsWhitespace (rustTrimList l) = rustTrimList l :=
    trimR_fixed_under_dropWhile rustIsWhitespace l
  have h2 : (rustTrimList l).reverse
      = List.dropWhile rustIsWhitespace ((List.dropWhile rustIsWhitespace l).reverse) :=
    List.reverse_reverse _
  show ((List.dropWhile rustIsWhitespace (rustTrimList l)).reverse.dropWhile
      rustIsWhitespace).reverse = rustTrimList l
  rw [h1, h2, dropWhile_idem]
  rfl

theorem rustTrim_idem (s : String) : rustTrim (rustTrim s) = rustTrim s := by
  unfold rustTrim
  rw [rustTrimList_idem]

theorem drip_validated_of_valid (st : AppState) (now : Int) (orc : RpcOracle)
    (a : String) (hs : starts_with_char a '5' = true) (hl : a.utf8ByteSize = 48) :
    drip_validated st now orc a = drip_rate_step st now orc a := by
  unfold drip_validated
  rw [hs, hl]
  simp

theorem drip_rate_step_allow (st : AppState) (now : Int) (orc : RpcOracle) (a : String)
    (hr : ∀ last, st.rate_limits.lookup a = some last →
      RATE_LIMIT_SECONDS ≤ numSeconds (now - last)) :
    drip_rate_step st now orc a = drip_capacity_step st now orc a := by
  unfold drip_rate_step
  cases h : st.rate_limits.lookup a with
  | none => rfl
  | some last => simp [if_neg (not_lt.mpr (hr last h))]

theorem drip_capacity_step_allow (st : AppState) (now : Int) (orc : RpcOracle) (a : String)
    (hcap : st.pending_txs.length < MAX_PENDING_TXS) :
    drip_capacity_step st now orc a = drip_submit_step st now orc a := by
  unfold drip_capacity_step
  rw [if_neg (not_le.mpr hcap)]

/-- For a nonnegative duration below 60 s, `num_seconds` lies in `[0, 60)`. -/
theorem numSeconds_bounds {d : Int} (h0 : 0 ≤ d) (hlt : d < 60 * 1000000000) :
    0 ≤ numSeconds d ∧ numSeconds d < 60 := by
  obtain ⟨m, rfl⟩ := Int.eq_ofNat_of_zero_le h0
  have hm : m < 60000000000 := by exact_mod_cast hlt
  have hdiv : numSeconds (m : Int) = ((m / 1000000000 : Nat) : Int) := rfl
  rw [hdiv]
  constructor
  · exact_mod_cast Nat.zero_le _
  · have : m / 1000000000 < 60 := Nat.div_lt_of_lt_mul (by omega)
    exact_mod_cast this

/-! ## Concrete fixtures used by witnesses and counterexamples -/

/-- A well-formed test address: `'5'` followed by 47 `'A'`s (48 ASCII
characters, 48 bytes). -/
def sample_address : String := "5AAAAAAAAAAAAAAAAAAAAAAAAAAAAAAAAAAAAAAAAAAAAAAA"

/-- The same address surrounded by one space on each side. -/
def padded_address : String := " 5AAAAAAAAAAAAAAAAAAAAAAAAAAAAAAAAAAAAAAAAAAAAAAA "

/-- The faucet state at startup: no rate-limit entries, no pending
transactions. -/
def empty_state : AppState := ⟨[], [], "http://51.79.26.123:9944"⟩

/-- An oracle for a fully successful run: genesis hash, nonce `0`, and a
`gateway_submit` reply carrying `result.hash`. -/
def ok_oracle : RpcOracle :=
  ⟨.reply (Json.obj
     [("jsonrpc", .str "2.0"), ("result", .str "0x1234abcd5678ef901234abcd"), ("id", .num 1)]),
   .reply (Json.obj [("jsonrpc", .str "2.0"), ("result", .num 0), ("id", .num 1)]),
   .reply (Json.obj
     [("jsonrpc", .str "2.0"), ("result", Json.obj [("hash", .str "0xdeadbeef")]),
      ("id", .num 1)])⟩

/-- A second up-to-capacity state: 100 pending transactions and no
rate-limit entries. -/
def full_pending_state : AppState :=
  ⟨[], List.replicate 100 ⟨sample_address, DRIP_AMOUNT, 0⟩, "http://51.79.26.123:9944"⟩

/-- Stated from the spec's words for claim C3: the address pattern
`^5.{47}$` — exactly 48 characters, the first being `'5'` (a regex
matches over characters). -/
def matches_address_regex (s : String) : Bool :=
  starts_with_char s '5' && s.length == 48

/-! ## Claim C3 -/

/-- C3 (counterexample): a request whose `address` is the valid sample
address surrounded by one space on each side does not match `^5.{47}$`
(it has 50 characters and starts with a space), yet `POST /drip` answers
HTTP 200 — not 400 — and records state, because the handler trims the
address before validating it (line 169). -/
theorem drip_padded_address_not_400 :
    matches_address_regex padded_address = false
      ∧ (drip empty_state 0 ok_oracle padded_address).map (fun r => r.1) = some 200 := by
  exact ⟨rfl, rfl⟩

/-- C3 (amended): for every request body whose address string, AFTER
trimming leading and trailing whitespace, does not both start with `'5'`
and have UTF-8 byte length exactly 48, `POST /drip` returns HTTP 400 and
mutates no state. -/
theorem drip_invalid_trimmed_address_400 (st : AppState) (now : Int) (orc : RpcOracle)
    (addr : String)
    (h : starts_with_char (rustTrim addr) '5' = false ∨ (rustTrim addr).utf8ByteSize ≠ 48) :
    drip st now orc addr = some (400,
      ⟨false,
        "Invalid address format. Must be a valid Substrate address starting with '5'",
        none, "0"⟩, st) := by
  unfold drip drip_validated
  rcases h with h | h
  · rw [h]
    simp
  · have hb : ((rustTrim addr).utf8ByteSize != 48) = true := by simpa using h
    rw [hb]
    simp

/-- C3 (witness): a concrete invalid address is rejected with 400 and
the state is returned unchanged. -/
theorem drip_invalid_trimmed_address_400_witness :
    drip empty_state 0 ok_oracle "hello" = some (400,
      ⟨false,
        "Invalid address format. Must be a valid Substrate address starting with '5'",
        none, "0"⟩, empty_state) :=
  drip_invalid_trimmed_address_400 empty_state 0 ok_oracle "hello" (Or.inl rfl)

/-! ## Claim C4 -/

/-- C4 (counterexample): with the pending list holding 100 entries, a
request with an invalid address is answered with HTTP 400, not 503 —
address validation runs before the capacity check, so the claim's
"regardless of whether the supplied address is valid" fails. -/
theorem drip_full_pending_invalid_address_400 :
    full_pending_state.pending_txs.length = 100
      ∧ (drip full_pending_state 0 ok_oracle "hello").map (fun r => r.1) = some 400
      ∧ (drip full_pending_state 0 ok_oracle "hello").map (fun r => r.1) ≠ some 503 := by
  refine ⟨by decide, rfl, by decide⟩

/-- C4 (amended): a drip request whose trimmed address is valid and not
rate-limited, arriving while the pending list already holds at least
`MAX_PENDING_TXS` (100) entries, is answered with HTTP 503 and mutates
no state.  (Requests with invalid addresses get 400 and rate-limited
ones get 429, as those checks run first.) -/
theorem drip_full_pending_503 (st : AppState) (now : Int) (orc : RpcOracle) (addr : String)
    (hs : starts_with_char (rustTrim addr) '5' = true)
    (hl : (rustTrim addr).utf8ByteSize = 48)
    (hr : ∀ last, st.rate_limits.lookup (rustTrim addr) = some last →
      RATE_LIMIT_SECONDS ≤ numSeconds (now - last))
    (hcap : st.pending_txs.length ≥ MAX_PENDING_TXS) :
    drip st now orc addr = some (503,
      ⟨false, "Too many pending transactions. Please try again later.", none, "0"⟩, st) := by
  unfold drip
  rw [drip_validated_of_valid st now orc (rustTrim addr) hs hl,
    drip_rate_step_allow st now orc (rustTrim addr) hr]
  unfold drip_capacity_step
  rw [if_pos hcap]

/-- C4 (witness): a fresh valid address is turned away with 503 once the
pending list is full. -/
theorem drip_full_pending_503_witness :
    drip full_pending_state 0 ok_oracle sample_address = some (503,
      ⟨false, "Too many pending transactions. Please try again later.", none, "0"⟩,
      full_pending_state) :=
  drip_full_pending_503 full_pending_state 0 ok_oracle sample_address (by decide) (by decide)
    (fun last h => nomatch h) (by decide)

/-! ## Claim C1 -/

/-- An oracle whose `gateway_submit` reply carries an `error` field with
message "Insufficient funds" (genesis and nonce succeed). -/
def submit_error_oracle : RpcOracle :=
  ⟨.reply (Json.obj
     [("jsonrpc", .str "2.0"), ("result", .str "0x1234abcd5678ef901234abcd"), ("id", .num 1)]),
   .reply (Json.obj [("jsonrpc", .str "2.0"), ("result", .num 0), ("id", .num 1)]),
   .reply (Json.obj
     [("jsonrpc", .str "2.0"),
      ("error", Json.obj [("code", .num (-32000)), ("message", .str "Insufficient funds")]),
      ("id", .num 1)])⟩

/-- C1: for a request that reaches the submission stage (valid trimmed
address, not rate-limited, capacity available):
(a) whenever `submit_transfer` fails with message `e`, `POST /drip`
returns HTTP 500 whose message is `"Failed to send transaction: " ++ e`
(so it contains `e`), and the returned state is exactly the input state
— neither the rate-limit map nor the pending list is mutated; and
(b) whenever the `gateway_submit` response body carries an `error` field
whose `message` is the string `m` (with the two earlier RPC steps
succeeding and the genesis hash sliceable for the log line),
`submit_transfer` fails with message `"RPC error: " ++ m`, so by (a) the
500 response's message contains the upstream error's `message` text. -/
theorem drip_upstream_error_no_mutation (st : AppState) (now : Int) (orc : RpcOracle)
    (addr : String)
    (hs : starts_with_char (rustTrim addr) '5' = true)
    (hl : (rustTrim addr).utf8ByteSize = 48)
    (hr : ∀ last, st.rate_limits.lookup (rustTrim addr) = some last →
      RATE_LIMIT_SECONDS ≤ numSeconds (now - last))
    (hcap : st.pending_txs.length < MAX_PENDING_TXS) :
    (∀ e, submit_transfer orc (rustTrim addr) DRIP_AMOUNT = some (.error e) →
      drip st now orc addr = some (500,
        ⟨false, "Failed to send transaction: " ++ e, none, "0"⟩, st))
    ∧ (∀ j err m g n, orc.submit = .reply j → j.getField "error" = some err →
        (err.index "message").asStr = some m →
        get_genesis_hash orc.genesis = .ok g →
        (takeBytes 16 g.data).isSome = true →
        get_nonce orc.nonce = .ok n →
        submit_transfer orc (rustTrim addr) DRIP_AMOUNT = some (.error ("RPC error: " ++ m))) := by
  constructor
  · intro e he
    unfold drip
    rw [drip_validated_of_valid st now orc (rustTrim addr) hs hl,
      drip_rate_step_allow st now orc (rustTrim addr) hr,
      drip_capacity_step_allow st now orc (rustTrim addr) hcap]
    unfold drip_submit_step
    rw [he]
  · intro j err m g n hsub herr hmsg hg htake hn
    obtain ⟨pre, hpre⟩ := Option.isSome_iff_exists.mp htake
    unfold submit_transfer submit_result_hash
    simp [hg, hn, hpre, hsub, herr, hmsg]

/-- C1 (witness): with the pending list empty and a fresh valid address,
an upstream `gateway_submit` error "Insufficient funds" yields a 500
whose message embeds that text, and the state is returned unchanged. -/
theorem drip_upstream_error_no_mutation_witness :
    drip empty_state 0 submit_error_oracle sample_address = some (500,
      ⟨false, "Failed to send transaction: RPC error: Insufficient funds", none, "0"⟩,
      empty_state) := by
  have h := drip_upstream_error_no_mutation empty_state 0 submit_error_oracle sample_address
    (by decide) (by decide) (fun last hcontra => nomatch hcontra) (by decide)
  have hsub := h.2 (Json.obj
      [("jsonrpc", .str "2.0"),
       ("error", Json.obj [("code", .num (-32000)), ("message", .str "Insufficient funds")]),
       ("id", .num 1)])
    (Json.obj [("code", .num (-32000)), ("message", .str "Insufficient funds")])
    "Insufficient funds" "0x1234abcd5678ef901234abcd" 0 rfl rfl rfl rfl (by decide) rfl
  exact h.1 ("RPC error: " ++ "Insufficient funds") hsub

/-! ## Claim C2 -/

/-- C2: for an address with a recorded last-drip timestamp `last ≤ now`,
a drip request arriving strictly less than 60 seconds later (the address
being a recorded, hence trimmed and valid, key) is answered with HTTP
429, the response message reports a wait of
`RATE_LIMIT_SECONDS - numSeconds (now - last)` seconds — 60 minus the
elapsed whole seconds — that wait lies in `[1, 60]`, and the returned
state is exactly the input state (pending list and rate-limit entry
untouched). -/
theorem drip_rate_limited_429 (st : AppState) (now last : Int) (orc : RpcOracle)
    (addr : String)
    (htrim : rustTrim addr = addr)
    (hs : starts_with_char addr '5' = true)
    (hl : addr.utf8ByteSize = 48)
    (hlast : st.rate_limits.lookup addr = some last)
    (hle : last ≤ now)
    (hlt : now - last < 60 * 1000000000) :
    drip st now orc addr = some (429,
      ⟨false,
        "Rate limited. Please wait "
          ++ toString (RATE_LIMIT_SECONDS - numSeconds (now - last)) ++ " seconds",
        none, "0"⟩, st)
      ∧ 1 ≤ RATE_LIMIT_SECONDS - numSeconds (now - last)
      ∧ RATE_LIMIT_SECONDS - numSeconds (now - last) ≤ 60 := by
  obtain ⟨hge, hlt60⟩ := numSeconds_bounds (by omega) hlt
  have hcond : numSeconds (now - last) < RATE_LIMIT_SECONDS := by
    unfold RATE_LIMIT_SECONDS
    exact hlt60
  refine ⟨?_, ?_, ?_⟩
  · unfold drip
    rw [htrim, drip_validated_of_valid st now orc addr hs hl]
    unfold drip_rate_step
    rw [hlast]
    simp only [if_pos hcond]
  · unfold RATE_LIMIT_SECONDS
    omega
  · unfold RATE_LIMIT_SECONDS
    omega

/-- C2 (witness): a second drip for the sample address 30.123456789
seconds after a recorded drip at time 0 is rejected with 429 asking to
wait 30 more seconds, and the state is returned unchanged. -/
theorem drip_rate_limited_429_witness :
    drip ⟨[(sample_address, 0)], [], "http://51.79.26.123:9944"⟩ 30123456789 ok_oracle
        sample_address = some (429,
      ⟨false, "Rate limited. Please wait 30 seconds", none, "0"⟩,
      ⟨[(sample_address, 0)], [], "http://51.79.26.123:9944"⟩)
      ∧ 1 ≤ RATE_LIMIT_SECONDS - numSeconds (30123456789 - 0)
      ∧ RATE_LIMIT_SECONDS - numSeconds (30123456789 - 0) ≤ 60 :=
  drip_rate_limited_429 ⟨[(sample_address, 0)], [], "http://51.79.26.123:9944"⟩
    30123456789 0 ok_oracle sample_address (by decide) (by decide) (by decide) (by decide)
    (by decide) (by decide)

/-! ## Claim C5 -/

/-- A `gateway_submit` reply whose `result.hash` field is present but
holds the number 42 rather than a string. -/
def numeric_hash_reply : Json :=
  Json.obj [("jsonrpc", .str "2.0"), ("result", Json.obj [("hash", .num 42)]), ("id", .num 1)]

/-- An oracle whose `gateway_submit` reply is `numeric_hash_reply`
(genesis and nonce succeed). -/
def numeric_hash_oracle : RpcOracle :=
  ⟨.reply (Json.obj
     [("jsonrpc", .str "2.0"), ("result", .str "0x1234abcd5678ef901234abcd"), ("id", .num 1)]),
   .reply (Json.obj [("jsonrpc", .str "2.0"), ("result", .num 0), ("id", .num 1)]),
   .reply numeric_hash_reply⟩

/-- C5 (counterexample): in `numeric_hash_reply` the field `result.hash`
is PRESENT (it is the number 42) and there is no `error` field, yet the
transfer submitter does not return that value: it fails with the
missing-transaction-hash error, because the source only accepts
`result.hash` via `as_str()`. -/
theorem submit_transfer_numeric_hash_fails :
    (numeric_hash_reply.index "result").getField "hash" = some (Json.num 42)
      ∧ numeric_hash_reply.getField "error" = none
      ∧ submit_transfer numeric_hash_oracle sample_address DRIP_AMOUNT
          = some (.error ("No transaction hash returned: " ++ jsonDebug numeric_hash_reply)) := by
  exact ⟨rfl, rfl, rfl⟩

/-- C5 (amended): for every `gateway_submit` response body without an
`error` field, reached with the two earlier RPC steps succeeding (and a
sliceable genesis hash), the transfer submitter returns the value of
`result.hash` whenever that field is present AS A STRING; otherwise it
returns `result` itself when `result` is a string; otherwise it fails
with the missing-transaction-hash error. -/
theorem submit_transfer_hash_extraction (orc : RpcOracle) (to_addr : String) (amount : Nat)
    (j : Json) (g : String) (n : Nat)
    (hg : get_genesis_hash orc.genesis = .ok g)
    (htake : (takeBytes 16 g.data).isSome = true)
    (hn : get_nonce orc.nonce = .ok n)
    (hsub : orc.submit = .reply j)
    (herr : j.getField "error" = none) :
    (∀ h, ((j.index "result").index "hash").asStr = some h →
      submit_transfer orc to_addr amount = some (.ok h))
    ∧ (∀ s, ((j.index "result").index "hash").asStr = none →
        (j.index "result").asStr = some s →
        submit_transfer orc to_addr amount = some (.ok s))
    ∧ (((j.index "result").index "hash").asStr = none →
        (j.index "result").asStr = none →
        submit_transfer orc to_addr amount
          = some (.error ("No transaction hash returned: " ++ jsonDebug j))) := by
  obtain ⟨pre, hpre⟩ := Option.isSome_iff_exists.mp htake
  refine ⟨?_, ?_, ?_⟩
  · intro h hh
    unfold submit_transfer submit_result_hash
    simp [hg, hn, hpre, hsub, herr, hh]
  · intro s hh hres
    unfold submit_transfer submit_result_hash
    simp [hg, hn, hpre, hsub, herr, hh, hres]
  · intro hh hres
    unfold submit_transfer submit_result_hash
    simp [hg, hn, hpre, hsub, herr, hh, hres]

/-- C5 (witness): with `result.hash` present as the string
`"0xdeadbeef"`, the submitter returns exactly that hash. -/
theorem submit_transfer_hash_extraction_witness :
    submit_transfer ok_oracle sample_address DRIP_AMOUNT = some (.ok "0xdeadbeef") :=
  (submit_transfer_hash_extraction ok_oracle sample_address DRIP_AMOUNT
      (Json.obj
        [("jsonrpc", .str "2.0"), ("result", Json.obj [("hash", .str "0xdeadbeef")]),
         ("id", .num 1)])
      "0x1234abcd5678ef901234abcd" 0 rfl (by decide) rfl rfl rfl).1 "0xdeadbeef" rfl

/-! ## Claim C6 -/

/-- C6: for every `gateway_nonce` response body without an `error`
field, the nonce fetch succeeds; and when `result` is missing or not an
unsigned integer (`as_u64` fails), it returns nonce 0 rather than an
error. -/
theorem get_nonce_no_error_defaults (j : Json) (herr : j.getField "error" = none) :
    (∃ n, get_nonce (.reply j) = .ok n)
      ∧ ((j.index "result").asU64 = none → get_nonce (.reply j) = .ok 0) := by
  constructor
  · exact ⟨((j.index "result").asU64.getD 0) % 2 ^ 32, by simp [get_nonce, herr]⟩
  · intro hres
    simp [get_nonce, herr, hres]

/-- C6 (witness): a reply with no `result` field at all still succeeds,
with nonce 0. -/
theorem get_nonce_no_error_defaults_witness :
    get_nonce (.reply (Json.obj [("jsonrpc", .str "2.0"), ("id", .num 1)])) = .ok 0 :=
  (get_nonce_no_error_defaults (Json.obj [("jsonrpc", .str "2.0"), ("id", .num 1)]) rfl).2 rfl

/-! ## Claim C7 -/

theorem find_active_validator_from_eq_find (probe_ok : String → Bool) (l : List String) :
    find_active_validator_from probe_ok l = l.find? probe_ok := by
  induction l with
  | nil => rfl
  | cons v rest ih =>
    unfold find_active_validator_from
    rw [List.find?_cons]
    cases h : probe_ok v with
    | false => simpa [h] using ih
    | true => simp [h]

/-- C7: `find_active_validator` returns the first endpoint of the fixed
list whose `system_health` probe had a transport-level success (the
probe outcome is `probe_ok`; the RPC payload is never inspected), and
when no endpoint probes successfully it returns the first configured
endpoint rather than failing. -/
theorem find_active_validator_first_success (probe_ok : String → Bool) :
    (∀ v, VALIDATORS.find? probe_ok = some v → find_active_validator probe_ok = v)
      ∧ ((∀ v ∈ VALIDATORS, probe_ok v = false) →
        find_active_validator probe_ok = "http://51.79.26.123:9944") := by
  constructor
  · intro v hv
    unfold find_active_validator
    rw [find_active_validator_from_eq_find, hv]
  · intro hall
    have hnone : VALIDATORS.find? probe_ok = none := by
      rw [List.find?_eq_none]
      intro x hx
      simp [hall x hx]
    unfold find_active_validator
    rw [find_active_validator_from_eq_find, hnone]
    rfl

/-- C7 (witness): with only the third endpoint responding, selection
returns it; with none responding, selection returns the first configured
endpoint. -/
theorem find_active_validator_first_success_witness :
    find_active_validator (fun s => s == "http://209.38.225.4:9944")
        = "http://209.38.225.4:9944"
      ∧ find_active_validator (fun _ => false) = "http://51.79.26.123:9944" :=
  ⟨(find_active_validator_first_success (fun s => s == "http://209.38.225.4:9944")).1
      "http://209.38.225.4:9944" (by decide),
   (find_active_validator_first_success (fun _ => false)).2 (fun v _ => rfl)⟩

/-! ## Claim C8 -/

/-- An upstream in which every validator's `system_health` probe
succeeds and every `chain_getHeader` reply carries
`result.number = "0"` — a string of one byte, shorter than the two
bytes sliced off by `&number[2..]`. -/
def bad_header_oracle : HealthOracle :=
  ⟨fun _ => true,
   fun _ => .reply (Json.obj
     [("jsonrpc", .str "2.0"), ("result", Json.obj [("number", .str "0")]), ("id", .num 1)])⟩

/-- C8 (code bug): the `/health` handler does NOT complete on every
upstream response: when a responding validator's `chain_getHeader` reply
has `result.number` shorter than two bytes, line 128's `&number[2..]`
byte-slices out of bounds and the handler panics (`none`) instead of
degrading, so the caller gets no well-formed response. -/
theorem health_check_panics_on_short_block_number :
    health_check bad_header_oracle = none := rfl

/-! ## Claim C9 -/

theorem drip_submit_step_200 (st : AppState) (now : Int) (orc : RpcOracle) (a : String)
    (resp : DripResponse) (st2 : AppState)
    (h : drip_submit_step st now orc a = some (200, resp, st2)) :
    st2 = { st with
      rate_limits := rateLimitInsert st.rate_limits a now,
      pending_txs := st.pending_txs ++ [⟨a, DRIP_AMOUNT, now⟩] } := by
  unfold drip_submit_step at h
  split at h
  · nomatch h
  · injection h with h'
    injection h' with h1 h2
    injection h2 with h3 h4
    exact h4.symm
  · exfalso
    injection h with h'
    injection h' with h1 h2
    exact absurd h1 (by decide)

theorem drip_capacity_step_200 (st : AppState) (now : Int) (orc : RpcOracle) (a : String)
    (resp : DripResponse) (st2 : AppState)
    (h : drip_capacity_step st now orc a = some (200, resp, st2)) :
    st2 = { st with
      rate_limits := rateLimitInsert st.rate_limits a now,
      pending_txs := st.pending_txs ++ [⟨a, DRIP_AMOUNT, now⟩] } := by
  unfold drip_capacity_step at h
  split at h
  · exfalso
    injection h with h'
    injection h' with h1 h2
    exact absurd h1 (by decide)
  · exact drip_submit_step_200 st now orc a resp st2 h

theorem drip_rate_step_200 (st : AppState) (now : Int) (orc : RpcOracle) (a : String)
    (resp : DripResponse) (st2 : AppState)
    (h : drip_rate_step st now orc a = some (200, resp, st2)) :
    st2 = { st with
      rate_limits := rateLimitInsert st.rate_limits a now,
      pending_txs := st.pending_txs ++ [⟨a, DRIP_AMOUNT, now⟩] } := by
  unfold drip_rate_step at h
  split at h
  · split at h
    · exfalso
      injection h with h'
      injection h' with h1 h2
      exact absurd h1 (by decide)
    · exact drip_capacity_step_200 st now orc a resp st2 h
  · exact drip_capacity_step_200 st now orc a resp st2 h

theorem drip_validated_200 (st : AppState) (now : Int) (orc : RpcOracle) (a : String)
    (resp : DripResponse) (st2 : AppState)
    (h : drip_validated st now orc a = some (200, resp, st2)) :
    st2 = { st with
      rate_limits := rateLimitInsert st.rate_limits a now,
      pending_txs := st.pending_txs ++ [⟨a, DRIP_AMOUNT, now⟩] } := by
  unfold drip_validated at h
  split at h
  · exfalso
    injection h with h'
    injection h' with h1 h2
    exact absurd h1 (by decide)
  · exact drip_rate_step_200 st now orc a resp st2 h

/-- C9: the `drip` handler trims the supplied address before doing
anything else, so (a) a request behaves exactly like the request for the
trimmed address; and (b) on a successful (HTTP 200) drip the state
recorded under the TRIMMED string: it is the key of the fresh rate-limit
entry and the recipient of the appended pending transaction (the same
trimmed string is also what `submit_transfer` receives as recipient, by
definition of `drip`). -/
theorem drip_trims_address (st : AppState) (now : Int) (orc : RpcOracle) (addr : String) :
    drip st now orc addr = drip st now orc (rustTrim addr)
      ∧ (∀ resp st2, drip st now orc addr = some (200, resp, st2) →
        st2.rate_limits.lookup (rustTrim addr) = some now
          ∧ st2.pending_txs.getLast? = some ⟨rustTrim addr, DRIP_AMOUNT, now⟩) := by
  constructor
  · show drip_validated st now orc (rustTrim addr)
        = drip_validated st now orc (rustTrim (rustTrim addr))
    rw [rustTrim_idem]
  · intro resp st2 h
    have hst2 := drip_validated_200 st now orc (rustTrim addr) resp st2 h
    subst hst2
    constructor
    · show List.lookup (rustTrim addr)
          (rateLimitInsert st.rate_limits (rustTrim addr) now) = some now
      unfold rateLimitInsert
      simp [List.lookup]
    · exact List.getLast?_concat _

/-- The state after a first successful drip of `sample_address` at
time 0, starting from `empty_state`. -/
def success_state : AppState :=
  ⟨[(sample_address, 0)], [⟨sample_address, DRIP_AMOUNT, 0⟩], "http://51.79.26.123:9944"⟩

/-- The response body of that successful drip. -/
def success_response : DripResponse :=
  ⟨true, "Tokens sent successfully!", some "0xdeadbeef", "10 QHT"⟩

/-- C9 (witness): the whitespace-padded sample address behaves exactly
like its trimmed form, and the successful drip records the trimmed
address as rate-limit key and pending recipient. -/
theorem drip_trims_address_witness :
    drip empty_state 0 ok_oracle padded_address
        = drip empty_state 0 ok_oracle (rustTrim padded_address)
      ∧ success_state.rate_limits.lookup (rustTrim padded_address) = some 0
      ∧ success_state.pending_txs.getLast?
          = some ⟨rustTrim padded_address, DRIP_AMOUNT, 0⟩ :=
  ⟨(drip_trims_address empty_state 0 ok_oracle padded_address).1,
   ((drip_trims_address empty_state 0 ok_oracle padded_address).2
       success_response success_state rfl).1,
   ((drip_trims_address empty_state 0 ok_oracle padded_address).2
       success_response success_state rfl).2⟩

/-! ## Claim C10 -/

/-- A `gateway_nonce` reply whose `result` is the JSON number
`2 ^ 64 + 2 ^ 33 + 2 ^ 31` — exactly representable as an `f64`, but
larger than `u64::MAX`, so `as_u64` returns `None`. -/
def huge_nonce_reply : Json :=
  Json.obj [("jsonrpc", .str "2.0"), ("result", .num 18446744084446969856), ("id", .num 1)]

/-- C10 (counterexample): for the result value
18446744084446969856 = 2^64 + 2^33 + 2^31 (which is ≥ 2^32), the code
does NOT use that value reduced modulo 2^32: `as_u64` fails on a value
above `u64::MAX`, so the fetched nonce falls back to 0, while the value
modulo 2^32 is 2147483648. -/
theorem get_nonce_huge_value_not_mod :
    get_nonce (.reply huge_nonce_reply) = .ok 0
      ∧ (18446744084446969856 : Nat) % 2 ^ 32 = 2147483648
      ∧ (0 : Nat) ≠ 2147483648 :=
  ⟨rfl, by decide, by decide⟩

/-- C10 (amended): the nonce fetch converts the JSON result to u64 and
then casts with a truncating `as u32`, so for every result value the
code can convert to u64 (an unsigned integer, necessarily < 2^64) that
is at least 2^32, the fetched nonce — and the `nonce` placed in the
subsequent `gateway_submit` request — equals that value reduced modulo
2^32.  (Values ≥ 2^64 are not u64-convertible and fall back to 0
instead.) -/
theorem get_nonce_truncates_u32 (orc : RpcOracle) (to_addr g : String) (amount : Nat)
    (j : Json) (v : Nat)
    (hg : get_genesis_hash orc.genesis = .ok g)
    (htake : (takeBytes 16 g.data).isSome = true)
    (hnj : orc.nonce = .reply j)
    (herr : j.getField "error" = none)
    (hres : (j.index "result").asU64 = some v)
    (_hge : 2 ^ 32 ≤ v) :
    get_nonce orc.nonce = .ok (v % 2 ^ 32)
      ∧ sent_submit_request orc to_addr amount
          = some (mk_submit_request to_addr amount (v % 2 ^ 32) g) := by
  have h1 : get_nonce orc.nonce = .ok (v % 2 ^ 32) := by
    rw [hnj]
    simp [get_nonce, herr, hres]
  refine ⟨h1, ?_⟩
  obtain ⟨pre, hpre⟩ := Option.isSome_iff_exists.mp htake
  unfold sent_submit_request
  simp [hg, h1, hpre]

/-- An oracle whose `gateway_nonce` result is `2 ^ 32 + 1`. -/
def truncating_nonce_oracle : RpcOracle :=
  ⟨.reply (Json.obj
     [("jsonrpc", .str "2.0"), ("result", .str "0x1234abcd5678ef901234abcd"), ("id", .num 1)]),
   .reply (Json.obj [("jsonrpc", .str "2.0"), ("result", .num 4294967297), ("id", .num 1)]),
   .reply (Json.obj
     [("jsonrpc", .str "2.0"), ("result", Json.obj [("hash", .str "0xdeadbeef")]),
      ("id", .num 1)])⟩

/-- C10 (witness): the u64 value `2 ^ 32 + 1` is fetched as nonce
`2 ^ 32 + 1 mod 2 ^ 32` (= 1), and that is the nonce in the
`gateway_submit` request body. -/
theorem get_nonce_truncates_u32_witness :
    get_nonce truncating_nonce_oracle.nonce = .ok (4294967297 % 2 ^ 32)
      ∧ sent_submit_request truncating_nonce_oracle sample_address DRIP_AMOUNT
          = some (mk_submit_request sample_address DRIP_AMOUNT (4294967297 % 2 ^ 32)
              "0x1234abcd5678ef901234abcd") :=
  get_nonce_truncates_u32 truncating_nonce_oracle sample_address
    "0x1234abcd5678ef901234abcd" DRIP_AMOUNT
    (Json.obj [("jsonrpc", .str "2.0"), ("result", .num 4294967297), ("id", .num 1)])
    4294967297 rfl (by decide) rfl rfl rfl (by decide)
